import Mathlib

/-!
Verification of the continuous voice capture session controller
(`VoiceService` in `src/js/voice.js`).

The controller is embedded shallowly: its mutable fields become a `VoiceState`
record, each method becomes a pure state transformer, and the externally
observable behaviour (caller callbacks fired, engine operations requested,
scheduled retry tasks) is returned alongside the new state.  The environment
(whether the platform offers a recognition engine, whether calls to the engine start
and stop operations throw) is passed in as explicit parameters, since it is
outside the control of the controller.
-/

namespace Voice

/-- A callback invocation observable by the caller: either the transcript
callback with the consolidated transcript, or the error callback with a
human-readable message. -/
inductive CbEvent
  | transcript (s : String)
  | error (s : String)
deriving DecidableEq, Repr

/-- An operation the controller requests from the recognition engine. -/
inductive EngineOp
  | engStart
  | engStop
  | engAbort
deriving DecidableEq, Repr

/-- The mutable fields of `VoiceService`.  The recognition handle is modelled
by an optional handle identifier (`none` = the `recognition` field is null);
`nextHandleId` is the supply of fresh handle identities.  The stored
callbacks are modelled by booleans recording whether a callback is stored
(`onTranscriptCallback` / `onErrorCallback` non-null). -/
structure VoiceState where
  currentSessionId : Nat
  activeSessionId : Option Nat
  isListening : Bool
  finalTranscript : String
  interimTranscript : String
  hasTranscriptCb : Bool
  hasErrorCb : Bool
  shouldContinue : Bool
  currentQuestionId : Option String
  recognition : Option Nat
  nextHandleId : Nat
deriving DecidableEq, Repr

/-- The state established by the `VoiceService` constructor. -/
def initialState : VoiceState :=
  { currentSessionId := 0
    activeSessionId := none
    isListening := false
    finalTranscript := ""
    interimTranscript := ""
    hasTranscriptCb := false
    hasErrorCb := false
    shouldContinue := false
    currentQuestionId := none
    recognition := none
    nextHandleId := 0 }

/-- JavaScript `String.prototype.trim`: remove leading and trailing
whitespace.  Embedded directly on the underlying character list so that it
evaluates by kernel reduction. -/
def jsTrim (s : String) : String :=
  ⟨((s.data.dropWhile Char.isWhitespace).reverse.dropWhile Char.isWhitespace).reverse⟩

/-- `destroyRecognition()`: unhooks and, if currently listening, aborts the
active engine instance, then nulls the handle; always ends not listening. -/
def destroyRecognition (s : VoiceState) : VoiceState × List EngineOp :=
  match s.recognition with
  | some _ =>
    let ops := if s.isListening then [EngineOp.engAbort] else []
    ({ s with recognition := none, isListening := false }, ops)
  | none => ({ s with isListening := false }, [])

/-- `hardReset()`: bump the session identifier, clear the continuation flag,
abort any active engine, clear both transcript buffer parts, drop the stored
callbacks and destroy the handle. -/
def hardReset (s : VoiceState) : VoiceState × List EngineOp :=
  let s1 : VoiceState :=
    { s with currentSessionId := s.currentSessionId + 1, shouldContinue := false }
  let abortOps : List EngineOp :=
    if s1.isListening && s1.recognition.isSome then [EngineOp.engAbort] else []
  let s2 : VoiceState :=
    { s1 with
      finalTranscript := ""
      interimTranscript := ""
      isListening := false
      activeSessionId := none
      hasTranscriptCb := false
      hasErrorCb := false }
  let d := destroyRecognition s2
  (d.1, abortOps ++ d.2)

/-- `stopListening()`: graceful pause; clears the continuation flag, asks an
active engine to stop, marks not listening.  Buffers are untouched. -/
def stopListening (s : VoiceState) : VoiceState × List EngineOp :=
  let s1 : VoiceState := { s with shouldContinue := false }
  let ops : List EngineOp :=
    if s1.recognition.isSome && s1.isListening then [EngineOp.engStop] else []
  ({ s1 with isListening := false }, ops)

/-- `submitAndStop()`: terminal stop; clears the continuation flag, asks an
active engine to stop, marks not listening, then bumps the session
identifier and drops the active-session marker. -/
def submitAndStop (s : VoiceState) : VoiceState × List EngineOp :=
  let s1 : VoiceState := { s with shouldContinue := false }
  let ops : List EngineOp :=
    if s1.recognition.isSome && s1.isListening then [EngineOp.engStop] else []
  ({ s1 with
      isListening := false
      currentSessionId := s1.currentSessionId + 1
      activeSessionId := none }, ops)

/-- `getCurrentTranscript()`: trimmed `final + " " + interim`. -/
def getCurrentTranscript (s : VoiceState) : String :=
  jsTrim (s.finalTranscript ++ " " ++ s.interimTranscript)

/-- `isActive()`. -/
def isActive (s : VoiceState) : Bool :=
  s.isListening

/-- `getSessionId()`. -/
def getSessionId (s : VoiceState) : Nat :=
  s.currentSessionId

/-- The `onstart` handler installed on the engine: mark listening. -/
def onstart (s : VoiceState) : VoiceState :=
  { s with isListening := true }

/-- The `onend` handler installed on the engine.  `capturedSession` is the
session identifier frozen into the closure of the handler at creation time;
`restartThrows` tells whether the engine `start()` call would throw if
attempted.  Returns the new state, the engine operations requested and the
callback events fired (always none here: restart failure is swallowed). -/
def onend (capturedSession : Nat) (restartThrows : Bool) (s : VoiceState) :
    VoiceState × List EngineOp × List CbEvent :=
  if s.shouldContinue && capturedSession == s.currentSessionId && s.isListening then
    if restartThrows then
      ({ s with isListening := false }, [EngineOp.engStart], [])
    else
      (s, [EngineOp.engStart], [])
  else
    ({ s with isListening := false }, [], [])

/-- The concatenation of the final fragments of one result event, each
followed by a single space (the loop variable `newFinalTranscript`).  A result
fragment is a pair of its transcript text and its `isFinal` flag; the list
holds `results[resultIndex..]`. -/
def collectFinal (results : List (String × Bool)) : String :=
  results.foldl (fun acc r => if r.2 then acc ++ r.1 ++ " " else acc) ""

/-- The concatenation of the non-final fragments of one result event (the
loop variable `newInterimTranscript`). -/
def collectInterim (results : List (String × Bool)) : String :=
  results.foldl (fun acc r => if r.2 then acc else acc ++ r.1) ""

/-- The `onresult` handler installed on the engine.  Stale events (captured
session identifier differing from the live one) are discarded.  Otherwise
the new final text is appended to the final buffer (note: the
`interimTranscript` field is not assigned here, mirroring the source), and
the stored transcript callback, if any, receives the trimmed
`final + " " + newInterim`. -/
def onresult (capturedSession : Nat) (results : List (String × Bool)) (s : VoiceState) :
    VoiceState × List CbEvent :=
  if capturedSession ≠ s.currentSessionId then (s, [])
  else
    let newFinal := collectFinal results
    let newInterim := collectInterim results
    let s1 : VoiceState :=
      if newFinal ≠ "" then { s with finalTranscript := s.finalTranscript ++ newFinal } else s
    let current := jsTrim (s1.finalTranscript ++ " " ++ newInterim)
    (s1, if s1.hasTranscriptCb then [CbEvent.transcript current] else [])

/-- The `onerror` handler installed on the engine.  Stale events are
discarded; `no-speech` and `aborted` return early (no callback, no state
change); every other kind maps to a message, fires the stored error
callback if any, and marks not listening.  The handle is never touched. -/
def onerror (capturedSession : Nat) (kind : String) (s : VoiceState) :
    VoiceState × List CbEvent :=
  if capturedSession ≠ s.currentSessionId then (s, [])
  else if kind = "no-speech" ∨ kind = "aborted" then (s, [])
  else
    let errorMessage :=
      if kind = "audio-capture" then "No microphone found"
      else if kind = "not-allowed" then "Microphone access denied"
      else "Error: " ++ kind
    ({ s with isListening := false },
      if s.hasErrorCb then [CbEvent.error errorMessage] else [])

/-- Outcome of the `recognition.start()` attempt at the end of
`startListeningForQuestion`: it succeeds, it throws `InvalidStateError` and
the recovery `stop()` succeeds, it throws `InvalidStateError` and the
recovery `stop()` itself throws, or it throws some other error. -/
inductive StartOutcome
  | ok
  | invalidStateStopOk
  | invalidStateStopThrows
  | otherError
deriving DecidableEq, Repr

/-- Everything observable about one `startListeningForQuestion` call: the
final state, the boolean return value, the callback events fired during the
call, the engine operations requested, and the retry task scheduled via
`setTimeout`, if any, as the pair of its captured session identifier and its
delay in milliseconds. -/
structure StartResult where
  state : VoiceState
  returned : Bool
  events : List CbEvent
  engineOps : List EngineOp
  scheduledRetry : Option (Nat × Nat)
deriving DecidableEq, Repr

/-- `startListeningForQuestion(questionId, onTranscript, onError)`.
`hasOnTranscript`/`hasOnError` tell whether the caller supplied each
callback; `supported` tells whether `createFreshRecognition` yields an
instance; `outcome` is the behaviour of the engine `start()` call. -/
def startListeningForQuestion (questionId : String)
    (hasOnTranscript hasOnError : Bool) (supported : Bool)
    (outcome : StartOutcome) (s : VoiceState) : StartResult :=
  -- question change forces a hard reset first
  let step1 : VoiceState × List EngineOp :=
    if s.currentQuestionId ≠ some questionId then
      let r := hardReset s
      ({ r.1 with currentQuestionId := some questionId }, r.2)
    else (s, [])
  let s1 := step1.1
  -- new session id, recorded as active
  let sessionId := s1.currentSessionId + 1
  let s2 : VoiceState :=
    { s1 with currentSessionId := sessionId, activeSessionId := some sessionId }
  -- completely destroy the old recognition instance
  let step3 := destroyRecognition s2
  let s3 := step3.1
  let ops := step1.2 ++ step3.2
  -- create a fresh recognition instance
  if supported = false then
    { state := s3
      returned := false
      events := if hasOnError then [CbEvent.error "Speech recognition not supported"] else []
      engineOps := ops
      scheduledRetry := none }
  else
    let s4 : VoiceState :=
      { s3 with
        recognition := some s3.nextHandleId
        nextHandleId := s3.nextHandleId + 1
        finalTranscript := ""
        interimTranscript := ""
        hasTranscriptCb := hasOnTranscript
        hasErrorCb := hasOnError
        shouldContinue := true }
    match outcome with
    | .ok =>
      { state := s4
        returned := true
        events := []
        engineOps := ops ++ [EngineOp.engStart]
        scheduledRetry := none }
    | .invalidStateStopOk =>
      { state := s4
        returned := false
        events := []
        engineOps := ops ++ [EngineOp.engStart, EngineOp.engStop]
        scheduledRetry := some (sessionId, 100) }
    | .invalidStateStopThrows =>
      { state := s4
        returned := false
        events := if hasOnError then [CbEvent.error "Failed to start voice input"] else []
        engineOps := ops ++ [EngineOp.engStart, EngineOp.engStop]
        scheduledRetry := none }
    | .otherError =>
      { state := s4
        returned := false
        events := if hasOnError then [CbEvent.error "Failed to start voice input"] else []
        engineOps := ops ++ [EngineOp.engStart]
        scheduledRetry := none }

/-- The body of the retry task scheduled on a transient start failure:
re-check the captured session identifier against the live one, and only on a
match attempt `recognition.start()` again; any throw there invokes the
`onError` parameter captured by the closure.  On a mismatch the body does
nothing. -/
def retryFire (capturedSession : Nat) (retryStartThrows : Bool) (hasOnError : Bool)
    (s : VoiceState) : VoiceState × List CbEvent × List EngineOp :=
  if capturedSession = s.currentSessionId then
    if retryStartThrows then
      (s, if hasOnError then [CbEvent.error "Failed to start voice input"] else [],
        [EngineOp.engStart])
    else
      (s, [], [EngineOp.engStart])
  else
    (s, [], [])

/-- One caller-visible operation, for reasoning about call sequences. -/
inductive Op
  | startQ (questionId : String) (hasOnTranscript hasOnError supported : Bool)
      (outcome : StartOutcome)
  | hreset
  | submit
deriving DecidableEq, Repr

/-- The state after one caller operation. -/
def applyOp (s : VoiceState) : Op → VoiceState
  | .startQ q ht he sup outc => (startListeningForQuestion q ht he sup outc s).state
  | .hreset => (hardReset s).1
  | .submit => (submitAndStop s).1

/-- The trace of session identifiers along a sequence of caller operations:
the identifier before any call, then the identifier after each call. -/
def sessionTrace (s : VoiceState) : List Op → List Nat
  | [] => [s.currentSessionId]
  | op :: rest => s.currentSessionId :: sessionTrace (applyOp s op) rest

/-- A listening state reached by a successful start for question `Q1`
followed by the engine start event (session identifier 2: the constructor
starts at 0, the initial question change bumps it once, the new session
bumps it again). -/
def listeningState : VoiceState :=
  onstart (startListeningForQuestion "Q1" true true true StartOutcome.ok initialState).state

/-- `listeningState` after a result event finalising the fragment `yes`. -/
def q1PriorState : VoiceState :=
  (onresult 2 [("yes", true)] listeningState).1

/-- `q1PriorState` after a further result event finalising `it works`, so the
final buffer holds the fragments `yes ` and `it works ` in that order. -/
def answeredState : VoiceState :=
  (onresult 2 [("it works", true)] q1PriorState).1

/-! ### Characterisation lemmas for the state transformers -/

theorem destroyRecognition_eq (s : VoiceState) :
    destroyRecognition s =
      ({ s with recognition := none, isListening := false },
        if s.recognition.isSome && s.isListening then [EngineOp.engAbort] else []) := by
  rcases s with ⟨sid, act, lis, fin, intr, htc, hec, sc, q, rec, nh⟩
  cases rec <;> cases lis <;> rfl

theorem hardReset_eq (s : VoiceState) :
    hardReset s =
      ({ s with
          currentSessionId := s.currentSessionId + 1
          shouldContinue := false
          finalTranscript := ""
          interimTranscript := ""
          isListening := false
          activeSessionId := none
          hasTranscriptCb := false
          hasErrorCb := false
          recognition := none },
        if s.isListening && s.recognition.isSome then [EngineOp.engAbort] else []) := by
  rcases s with ⟨sid, act, lis, fin, intr, htc, hec, sc, q, rec, nh⟩
  cases rec <;> cases lis <;> rfl

theorem submitAndStop_eq (s : VoiceState) :
    submitAndStop s =
      ({ s with
          shouldContinue := false
          isListening := false
          currentSessionId := s.currentSessionId + 1
          activeSessionId := none },
        if s.recognition.isSome && s.isListening then [EngineOp.engStop] else []) := by
  rcases s with ⟨sid, act, lis, fin, intr, htc, hec, sc, q, rec, nh⟩
  rfl

theorem stopListening_eq (s : VoiceState) :
    stopListening s =
      ({ s with shouldContinue := false, isListening := false },
        if s.recognition.isSome && s.isListening then [EngineOp.engStop] else []) := by
  rcases s with ⟨sid, act, lis, fin, intr, htc, hec, sc, q, rec, nh⟩
  rfl

theorem startListeningForQuestion_sessionId (q : String) (ht he sup : Bool)
    (outc : StartOutcome) (s : VoiceState) :
    (startListeningForQuestion q ht he sup outc s).state.currentSessionId =
      (if s.currentQuestionId = some q then s.currentSessionId + 1
        else s.currentSessionId + 2) := by
  by_cases hq : s.currentQuestionId = some q <;>
    cases sup <;> cases outc <;>
      simp [startListeningForQuestion, hq, hardReset_eq, destroyRecognition_eq]

theorem applyOp_sessionId_lt (s : VoiceState) (op : Op) :
    s.currentSessionId < (applyOp s op).currentSessionId := by
  cases op with
  | startQ q ht he sup outc =>
    rw [applyOp, startListeningForQuestion_sessionId]
    split <;> omega
  | hreset =>
    rw [applyOp, hardReset_eq]
    simp
  | submit =>
    rw [applyOp, submitAndStop_eq]
    simp

theorem sessionTrace_lower_bound (s : VoiceState) (ops : List Op) :
    ∀ y ∈ sessionTrace s ops, s.currentSessionId ≤ y := by
  induction ops generalizing s with
  | nil =>
    intro y hy
    simp only [sessionTrace, List.mem_singleton] at hy
    omega
  | cons op rest ih =>
    intro y hy
    simp only [sessionTrace, List.mem_cons] at hy
    rcases hy with h | h
    · omega
    · exact le_trans (le_of_lt (applyOp_sessionId_lt s op)) (ih (applyOp s op) y h)

theorem sessionTrace_pairwise (s : VoiceState) (ops : List Op) :
    (sessionTrace s ops).Pairwise (· < ·) := by
  induction ops generalizing s with
  | nil => simp [sessionTrace]
  | cons op rest ih =>
    refine List.Pairwise.cons ?_ (ih (applyOp s op))
    intro y hy
    exact lt_of_lt_of_le (applyOp_sessionId_lt s op)
      (sessionTrace_lower_bound (applyOp s op) rest y hy)

/-! ### The claims -/

/-- Claim C1: every result or error event whose captured session identifier
differs from the current session identifier invokes neither callback and
leaves the whole state — in particular both transcript buffer parts —
unchanged; and a result event from the old handle arriving after
`submitAndStop()` leaves `getCurrentTranscript()` unchanged. -/
theorem stale_events_are_discarded :
    (∀ (sid : Nat) (results : List (String × Bool)) (s : VoiceState),
        sid ≠ s.currentSessionId → onresult sid results s = (s, [])) ∧
    (∀ (sid : Nat) (kind : String) (s : VoiceState),
        sid ≠ s.currentSessionId → onerror sid kind s = (s, [])) ∧
    (∀ (s : VoiceState) (results : List (String × Bool)),
        getCurrentTranscript
            (onresult s.currentSessionId results (submitAndStop s).1).1 =
          getCurrentTranscript (submitAndStop s).1) := by
  refine ⟨?_, ?_, ?_⟩
  · intro sid results s h
    simp [onresult, h]
  · intro sid kind s h
    simp [onerror, h]
  · intro s results
    have h : s.currentSessionId ≠ (submitAndStop s).1.currentSessionId := by
      rw [submitAndStop_eq]
      simp
    simp [onresult, h]

/-- Witness for C1 at concrete stale inputs. -/
theorem stale_events_are_discarded_witness :
    onresult 5 [("hi", true)] initialState = (initialState, []) ∧
    onerror 5 "not-allowed" initialState = (initialState, []) :=
  ⟨stale_events_are_discarded.1 5 [("hi", true)] initialState (by decide),
    stale_events_are_discarded.2.1 5 "not-allowed" initialState (by decide)⟩

/-- Claim C2: every `startListeningForQuestion`, `hardReset` and
`submitAndStop` call leaves the session identifier strictly greater than it
was, and along any sequence of such calls the identifiers are pairwise
strictly increasing, so no identifier is ever reused. -/
theorem session_ids_strictly_increase :
    (∀ (s : VoiceState) (op : Op),
        s.currentSessionId < (applyOp s op).currentSessionId) ∧
    (∀ (s : VoiceState) (ops : List Op),
        (sessionTrace s ops).Pairwise (· < ·)) :=
  ⟨applyOp_sessionId_lt, sessionTrace_pairwise⟩

/-- Claim C3 counterexample: with the final fragments `yes ` and `it works `
accumulated in that order and the most recent result event carrying the
interim fragment `because`, `getCurrentTranscript()` does not return
`yes it works because`. -/
theorem buffer_composition_counterexample :
    answeredState.finalTranscript = "yes it works " ∧
    getCurrentTranscript (onresult 2 [("because", false)] answeredState).1 ≠
      "yes it works because" := by decide

/-- Claim C3 (amended): in that scenario `getCurrentTranscript()` returns
`yes it works` — the interim fragment is missing, because the result handler
never writes the interim buffer field — while the transcript callback fired
by the interim event instead receives `yes it works  because` with a double
space, since each finalised fragment already carries a trailing space and
the consolidation inserts another before the interim text. -/
theorem buffer_composition :
    answeredState.finalTranscript = "yes it works " ∧
    getCurrentTranscript (onresult 2 [("because", false)] answeredState).1 =
      "yes it works" ∧
    (onresult 2 [("because", false)] answeredState).2 =
      [CbEvent.transcript "yes it works  because"] := by decide

/-- Claim C4: the result handler never assigns the interim buffer field —
the concatenated non-final fragments reach only the transcript callback —
so `getCurrentTranscript()` after the event does not include the latest
interim text; the final buffer does grow by exactly the finalised fragments,
each followed by a single space. -/
theorem interim_buffer_never_updated :
    (∀ (sid : Nat) (results : List (String × Bool)) (s : VoiceState),
        (onresult sid results s).1.interimTranscript = s.interimTranscript) ∧
    (onresult 2 [("because", false)] listeningState).1.interimTranscript = "" ∧
    getCurrentTranscript (onresult 2 [("because", false)] listeningState).1 = "" ∧
    (onresult 2 [("because", false)] listeningState).2 =
      [CbEvent.transcript "because"] ∧
    (onresult 2 [("hi", true), ("there", false)] listeningState).1.finalTranscript =
      "hi " ∧
    (onresult 2 [("hi", true), ("there", false)] listeningState).1.interimTranscript =
      "" := by
  refine ⟨?_, by decide, by decide, by decide, by decide, by decide⟩
  intro sid results s
  rw [onresult]
  split
  · rfl
  · dsimp only
    split <;> rfl

/-- Claim C5: starting to listen for a question different from the tracked
one leaves both transcript buffer parts empty immediately after the call
returns, whatever the platform support and engine start outcome, so
`getCurrentTranscript()` returns the empty string at that point. -/
theorem question_change_clears_buffers (q : String) (ht he sup : Bool)
    (outc : StartOutcome) (s : VoiceState) (hq : s.currentQuestionId ≠ some q) :
    (startListeningForQuestion q ht he sup outc s).state.finalTranscript = "" ∧
    (startListeningForQuestion q ht he sup outc s).state.interimTranscript = "" ∧
    getCurrentTranscript (startListeningForQuestion q ht he sup outc s).state = "" := by
  have h1 : (startListeningForQuestion q ht he sup outc s).state.finalTranscript = "" := by
    cases sup <;> cases outc <;>
      simp [startListeningForQuestion, hq, hardReset_eq, destroyRecognition_eq]
  have h2 : (startListeningForQuestion q ht he sup outc s).state.interimTranscript = "" := by
    cases sup <;> cases outc <;>
      simp [startListeningForQuestion, hq, hardReset_eq, destroyRecognition_eq]
  refine ⟨h1, h2, ?_⟩
  rw [getCurrentTranscript, h1, h2]
  decide

/-- Witness for C5: start for `Q1`, then immediately start for `Q2` with no
intervening stop. -/
theorem question_change_clears_buffers_witness :
    (startListeningForQuestion "Q2" true true true StartOutcome.ok
        (startListeningForQuestion "Q1" true true true StartOutcome.ok
          initialState).state).state.finalTranscript = "" ∧
    (startListeningForQuestion "Q2" true true true StartOutcome.ok
        (startListeningForQuestion "Q1" true true true StartOutcome.ok
          initialState).state).state.interimTranscript = "" ∧
    getCurrentTranscript (startListeningForQuestion "Q2" true true true StartOutcome.ok
        (startListeningForQuestion "Q1" true true true StartOutcome.ok
          initialState).state).state = "" :=
  question_change_clears_buffers "Q2" true true true StartOutcome.ok _ (by decide)

/-- Claim C6: the end handler restarts the engine exactly when the
continuation flag is set, the captured session identifier is still current
and the controller believes it is listening; it never fires a callback; a
restart that throws is swallowed and marks not listening, a successful
restart leaves the state unchanged; in every other case it marks not
listening and requests no engine operation. -/
theorem end_event_restart_policy :
    (∀ (sid : Nat) (rt : Bool) (s : VoiceState), (onend sid rt s).2.2 = []) ∧
    (∀ (sid : Nat) (rt : Bool) (s : VoiceState),
        (onend sid rt s).2.1 = [EngineOp.engStart] ↔
          (s.shouldContinue = true ∧ sid = s.currentSessionId ∧ s.isListening = true)) ∧
    (∀ (sid : Nat) (s : VoiceState),
        s.shouldContinue = true → sid = s.currentSessionId → s.isListening = true →
          (onend sid true s).1.isListening = false ∧ (onend sid false s).1 = s) ∧
    (∀ (sid : Nat) (rt : Bool) (s : VoiceState),
        ¬(s.shouldContinue = true ∧ sid = s.currentSessionId ∧ s.isListening = true) →
          (onend sid rt s).1.isListening = false ∧ (onend sid rt s).2.1 = []) := by
  have hcond : ∀ (sid : Nat) (s : VoiceState),
      ((s.shouldContinue && sid == s.currentSessionId && s.isListening) = true) ↔
        (s.shouldContinue = true ∧ sid = s.currentSessionId ∧ s.isListening = true) := by
    intro sid s
    simp [Bool.and_eq_true, and_assoc]
  refine ⟨?_, ?_, ?_, ?_⟩
  · intro sid rt s
    rw [onend]
    split
    · cases rt <;> rfl
    · rfl
  · intro sid rt s
    by_cases h : s.shouldContinue = true ∧ sid = s.currentSessionId ∧ s.isListening = true
    · have hb := (hcond sid s).mpr h
      cases rt <;> simp [onend, hb, h]
    · have hb : (s.shouldContinue && sid == s.currentSessionId && s.isListening) ≠ true :=
        fun hc => h ((hcond sid s).mp hc)
      simp only [Bool.not_eq_true] at hb
      simp [onend, hb, h]
  · intro sid s h1 h2 h3
    have hb := (hcond sid s).mpr ⟨h1, h2, h3⟩
    constructor <;> simp [onend, hb]
  · intro sid rt s h
    have hb : (s.shouldContinue && sid == s.currentSessionId && s.isListening) ≠ true :=
      fun hc => h ((hcond sid s).mp hc)
    simp only [Bool.not_eq_true] at hb
    constructor <;> simp [onend, hb]

/-- Witness for C6: a spontaneous end while listening with the continuation
flag set restarts (and a throwing restart just marks not listening); after
`stopListening()` cleared the flag, an end event marks not listening and
requests no restart. -/
theorem end_event_restart_policy_witness :
    ((onend 2 true listeningState).1.isListening = false ∧
      (onend 2 false listeningState).1 = listeningState) ∧
    ((onend 2 false (stopListening listeningState).1).1.isListening = false ∧
      (onend 2 false (stopListening listeningState).1).2.1 = []) :=
  ⟨end_event_restart_policy.2.2.1 2 listeningState (by decide) (by decide) (by decide),
    end_event_restart_policy.2.2.2 2 false (stopListening listeningState).1 (by decide)⟩

/-- Claim C7 counterexample, refuting the claim as stated in two respects.
First: when the engine start throws the transient already-started failure
but the recovery stop call itself throws, no retry is scheduled at all —
the failed-to-start error is surfaced immediately instead — so an
`InvalidStateError` during `startListeningForQuestion` does not always
schedule a retry.  Second: a transient start failure with a successful
recovery stop schedules a retry capturing session identifier 2; a hard
reset then supersedes that session (identifier 3); when the retry fires it
is skipped silently — no `Failed to start voice input` error is surfaced —
contrary to the claim that supersession before the retry surfaces a
failed-to-start error. -/
theorem transient_retry_counterexample :
    (startListeningForQuestion "Q1" true true true StartOutcome.invalidStateStopThrows
        initialState).scheduledRetry = none ∧
    (startListeningForQuestion "Q1" true true true StartOutcome.invalidStateStopThrows
        initialState).events = [CbEvent.error "Failed to start voice input"] ∧
    (startListeningForQuestion "Q1" true true true StartOutcome.invalidStateStopOk
        initialState).scheduledRetry = some (2, 100) ∧
    (hardReset (startListeningForQuestion "Q1" true true true
        StartOutcome.invalidStateStopOk initialState).state).1.currentSessionId = 3 ∧
    retryFire 2 true true
        (hardReset (startListeningForQuestion "Q1" true true true
          StartOutcome.invalidStateStopOk initialState).state).1 =
      ((hardReset (startListeningForQuestion "Q1" true true true
          StartOutcome.invalidStateStopOk initialState).state).1, [], []) := by decide

/-- Claim C7 (amended): when the engine start throws the transient
already-started failure and the recovery stop call succeeds, exactly one
retry is scheduled, after a 100 ms delay, capturing the new current session
identifier; when the recovery stop call itself throws, no retry is
scheduled and `Failed to start voice input` is surfaced immediately; the
fired retry attempts the engine start only if the captured identifier still
equals the current one, surfacing `Failed to start voice input` if that
start throws again; if the session was superseded before the retry fired,
the retry does nothing and surfaces no error. -/
theorem transient_start_retry (q : String) (ht he : Bool) (s : VoiceState) :
    ((startListeningForQuestion q ht he true
        StartOutcome.invalidStateStopOk s).scheduledRetry =
      some ((startListeningForQuestion q ht he true
        StartOutcome.invalidStateStopOk s).state.currentSessionId, 100)) ∧
    (∀ (q2 : String) (ht2 : Bool) (s2 : VoiceState),
        (startListeningForQuestion q2 ht2 true true
          StartOutcome.invalidStateStopThrows s2).scheduledRetry = none ∧
        (startListeningForQuestion q2 ht2 true true
          StartOutcome.invalidStateStopThrows s2).events =
          [CbEvent.error "Failed to start voice input"]) ∧
    (∀ (sid : Nat) (rt hoe : Bool) (s2 : VoiceState), sid ≠ s2.currentSessionId →
        retryFire sid rt hoe s2 = (s2, [], [])) ∧
    (∀ (sid : Nat) (s2 : VoiceState), sid = s2.currentSessionId →
        retryFire sid true true s2 =
          (s2, [CbEvent.error "Failed to start voice input"], [EngineOp.engStart])) ∧
    (∀ (sid : Nat) (s2 : VoiceState), sid = s2.currentSessionId →
        retryFire sid false true s2 = (s2, [], [EngineOp.engStart])) := by
  refine ⟨?_, ?_, ?_, ?_, ?_⟩
  · by_cases hq : s.currentQuestionId = some q <;>
      simp [startListeningForQuestion, hq, hardReset_eq, destroyRecognition_eq]
  · intro q2 ht2 s2
    by_cases hq : s2.currentQuestionId = some q2 <;>
      simp [startListeningForQuestion, hq, hardReset_eq, destroyRecognition_eq]
  · intro sid rt hoe s2 h
    simp [retryFire, h]
  · intro sid s2 h
    simp [retryFire, h]
  · intro sid s2 h
    simp [retryFire, h]

/-- Witness for C7 at concrete inputs: a matching retry whose start throws
surfaces the error; a superseded retry does nothing. -/
theorem transient_start_retry_witness :
    retryFire 7 true true { initialState with currentSessionId := 7 } =
      ({ initialState with currentSessionId := 7 },
        [CbEvent.error "Failed to start voice input"], [EngineOp.engStart]) ∧
    retryFire 5 true true initialState = (initialState, [], []) :=
  ⟨(transient_start_retry "Q1" true true initialState).2.2.2.1 7
      { initialState with currentSessionId := 7 } (by decide),
    (transient_start_retry "Q1" true true initialState).2.2.1 5 true true initialState
      (by decide)⟩

/-- Claim C8 counterexample: a current-session `no-speech` error event
leaves the listening flag set — the handler returns before the
mark-not-listening assignment — contrary to the claim that every error
event, benign kinds included, marks the controller as not listening. -/
theorem benign_error_keeps_listening :
    listeningState.isListening = true ∧
    (onerror 2 "no-speech" listeningState).1.isListening = true ∧
    (onerror 2 "no-speech" listeningState).2 = [] := by decide

/-- Claim C8 (amended): a current-session error event of a benign kind
(`no-speech`, `aborted`) fires no callback and leaves the state — the
listening flag included — unchanged, keeping the session eligible for the
auto-restart decided by the subsequent end event; every non-benign kind
marks not listening; no error event touches the recognition handle;
`audio-capture` maps to `No microphone found`, `not-allowed` to
`Microphone access denied`, and unrecognised kinds to a generic
`Error: <kind>` message. -/
theorem error_event_policy :
    (∀ (sid : Nat) (s : VoiceState), sid = s.currentSessionId →
        onerror sid "no-speech" s = (s, []) ∧ onerror sid "aborted" s = (s, [])) ∧
    (∀ (sid : Nat) (kind : String) (s : VoiceState), sid = s.currentSessionId →
        kind ≠ "no-speech" → kind ≠ "aborted" →
        (onerror sid kind s).1.isListening = false) ∧
    (∀ (sid : Nat) (kind : String) (s : VoiceState),
        (onerror sid kind s).1.recognition = s.recognition) ∧
    (∀ (sid : Nat) (s : VoiceState), sid = s.currentSessionId → s.hasErrorCb = true →
        (onerror sid "audio-capture" s).2 = [CbEvent.error "No microphone found"] ∧
        (onerror sid "not-allowed" s).2 = [CbEvent.error "Microphone access denied"]) ∧
    (∀ (sid : Nat) (kind : String) (s : VoiceState), sid = s.currentSessionId →
        s.hasErrorCb = true → kind ≠ "no-speech" → kind ≠ "aborted" →
        kind ≠ "audio-capture" → kind ≠ "not-allowed" →
        (onerror sid kind s).2 = [CbEvent.error ("Error: " ++ kind)]) := by
  refine ⟨?_, ?_, ?_, ?_, ?_⟩
  · intro sid s h
    subst h
    constructor <;> simp [onerror]
  · intro sid kind s h h1 h2
    subst h
    simp [onerror, h1, h2]
  · intro sid kind s
    rw [onerror]
    split
    · rfl
    · split
      · rfl
      · rfl
  · intro sid s h hcb
    subst h
    constructor <;> simp [onerror, hcb]
  · intro sid kind s h hcb h1 h2 h3 h4
    subst h
    simp [onerror, h1, h2, h3, h4, hcb]

/-- Witness for C8 at concrete inputs: benign kinds change nothing, a
permission error marks not listening, and the message mappings hold. -/
theorem error_event_policy_witness :
    (onerror 2 "no-speech" listeningState = (listeningState, []) ∧
      onerror 2 "aborted" listeningState = (listeningState, [])) ∧
    (onerror 2 "not-allowed" listeningState).1.isListening = false ∧
    (onerror 2 "audio-capture" listeningState).2 =
      [CbEvent.error "No microphone found"] ∧
    (onerror 2 "network" listeningState).2 = [CbEvent.error ("Error: " ++ "network")] :=
  ⟨error_event_policy.1 2 listeningState (by decide),
    error_event_policy.2.1 2 "not-allowed" listeningState (by decide) (by decide)
      (by decide),
    (error_event_policy.2.2.2.1 2 listeningState (by decide) (by decide)).1,
    error_event_policy.2.2.2.2 2 "network" listeningState (by decide) (by decide)
      (by decide) (by decide) (by decide) (by decide)⟩

/-- Claim C9 counterexample: `hardReset` and `submitAndStop` are not
idempotent as stated — the second invocation bumps the session identifier
again, so the state after two invocations differs from the state after
one. -/
theorem cancellation_not_strictly_idempotent :
    (hardReset (hardReset initialState).1).1 ≠ (hardReset initialState).1 ∧
    (submitAndStop (submitAndStop initialState).1).1 ≠
      (submitAndStop initialState).1 := by decide

/-- Claim C9 (amended): `hardReset` and `submitAndStop` are idempotent up to
the session identifier — an immediate second invocation reproduces the state
of the first except for bumping the identifier once more — and each is safe
to invoke from any state: both are total (all engine exceptions are
swallowed internally), by construction neither ever fires a caller callback,
and the second invocation requests no engine operation at all. -/
theorem cancellation_idempotent_up_to_session (s : VoiceState) :
    ((hardReset (hardReset s).1).1 =
        { (hardReset s).1 with
            currentSessionId := (hardReset s).1.currentSessionId + 1 } ∧
      (hardReset (hardReset s).1).2 = []) ∧
    ((submitAndStop (submitAndStop s).1).1 =
        { (submitAndStop s).1 with
            currentSessionId := (submitAndStop s).1.currentSessionId + 1 } ∧
      (submitAndStop (submitAndStop s).1).2 = []) := by
  rcases s with ⟨sid, act, lis, fin, intr, htc, hec, sc, q, rec, nh⟩
  refine ⟨⟨?_, ?_⟩, ?_, ?_⟩ <;> simp [hardReset_eq, submitAndStop_eq]

/-- Claim C10 counterexample: when the question also changes, the
no-capability failure path does not leave the transcript buffers unchanged —
the hard reset triggered by the question change clears them (and the
continuation flag) before the capability check runs. -/
theorem unsupported_start_after_question_change_clears :
    q1PriorState.finalTranscript = "yes " ∧
    q1PriorState.shouldContinue = true ∧
    (startListeningForQuestion "Q2" true true false StartOutcome.ok
        q1PriorState).state.finalTranscript = "" ∧
    (startListeningForQuestion "Q2" true true false StartOutcome.ok
        q1PriorState).state.shouldContinue = false := by decide

/-- Claim C10 (amended): when the platform offers no recognition capability
and the question is unchanged, `startListeningForQuestion` returns false and
invokes the error callback when one is supplied, after having already bumped
the session identifier and destroyed the prior handle — so the failed call
still invalidates any in-flight prior session — while both transcript buffer
parts, the continuation flag and the stored callbacks keep their previous
values, and no retry is scheduled. -/
theorem unsupported_start_failure (q : String) (ht he : Bool)
    (outc : StartOutcome) (s : VoiceState) (hq : s.currentQuestionId = some q) :
    (startListeningForQuestion q ht he false outc s).returned = false ∧
    (startListeningForQuestion q ht he false outc s).events =
      (if he then [CbEvent.error "Speech recognition not supported"] else []) ∧
    (startListeningForQuestion q ht he false outc s).state.currentSessionId =
      s.currentSessionId + 1 ∧
    (startListeningForQuestion q ht he false outc s).state.recognition = none ∧
    (startListeningForQuestion q ht he false outc s).state.finalTranscript =
      s.finalTranscript ∧
    (startListeningForQuestion q ht he false outc s).state.interimTranscript =
      s.interimTranscript ∧
    (startListeningForQuestion q ht he false outc s).state.shouldContinue =
      s.shouldContinue ∧
    (startListeningForQuestion q ht he false outc s).state.hasTranscriptCb =
      s.hasTranscriptCb ∧
    (startListeningForQuestion q ht he false outc s).state.hasErrorCb =
      s.hasErrorCb ∧
    (startListeningForQuestion q ht he false outc s).scheduledRetry = none := by
  simp [startListeningForQuestion, hq, destroyRecognition_eq]

/-- Witness for C10: the no-capability failure on the state already tracking
question `Q1`, with the buffer holding `yes `. -/
theorem unsupported_start_failure_witness :
    (startListeningForQuestion "Q1" true true false StartOutcome.ok
      q1PriorState).returned = false ∧
    (startListeningForQuestion "Q1" true true false StartOutcome.ok
      q1PriorState).events =
      (if true then [CbEvent.error "Speech recognition not supported"] else []) ∧
    (startListeningForQuestion "Q1" true true false StartOutcome.ok
      q1PriorState).state.currentSessionId = q1PriorState.currentSessionId + 1 ∧
    (startListeningForQuestion "Q1" true true false StartOutcome.ok
      q1PriorState).state.recognition = none ∧
    (startListeningForQuestion "Q1" true true false StartOutcome.ok
      q1PriorState).state.finalTranscript = q1PriorState.finalTranscript ∧
    (startListeningForQuestion "Q1" true true false StartOutcome.ok
      q1PriorState).state.interimTranscript = q1PriorState.interimTranscript ∧
    (startListeningForQuestion "Q1" true true false StartOutcome.ok
      q1PriorState).state.shouldContinue = q1PriorState.shouldContinue ∧
    (startListeningForQuestion "Q1" true true false StartOutcome.ok
      q1PriorState).state.hasTranscriptCb = q1PriorState.hasTranscriptCb ∧
    (startListeningForQuestion "Q1" true true false StartOutcome.ok
      q1PriorState).state.hasErrorCb = q1PriorState.hasErrorCb ∧
    (startListeningForQuestion "Q1" true true false StartOutcome.ok
      q1PriorState).scheduledRetry = none :=
  unsupported_start_failure "Q1" true true StartOutcome.ok q1PriorState (by decide)

end Voice
